import Mathlib

/-
Verification of the EcoFlow API gateway's request-orchestration layer.

The gateway (src/api-gateway/main.py) verifies bearer tokens against the
auth backend, fans requests out to the data backends (projects, carbon),
aggregates a dashboard view, and polls every registered service's health
endpoint.  The development below is a shallow embedding: the network is a
parameter (a function from requests to network results), each handler is a
pure function returning its outcome together with the trace of outbound
requests it issued, in issuance order.
-/

namespace EcoFlow

/-- JSON values, as produced by the Python json machinery. -/
inductive Json where
  | null
  | bool (b : Bool)
  | num (n : Int)
  | str (s : String)
  | arr (elems : List Json)
  | obj (fields : List (String × Json))

/-- Association-list lookup, modelling Python dict indexing by key
(first matching key wins; Python dicts have distinct keys). -/
def getVal {α : Type} : List (String × α) → String → Option α
  | [], _ => none
  | (k, v) :: rest, key => if k = key then some v else getVal rest key

/-- Python subscript access on a parsed JSON value: returns the field of an
object, and fails (KeyError / TypeError, an uncaught exception) otherwise. -/
def getField : Json → String → Option Json
  | Json.obj fields, key => getVal fields key
  | _, _ => none

mutual

/-- Python str() of a JSON value.  Scalar cases are exact
(str(42) is 42, str(True) is True, str(None) is None, a string is itself);
container cases render elements comma-separated, which is close to but not
exactly the Python repr (reachable code only ever applies str() to the
numeric user_id). -/
def pyStr : Json → String
  | Json.null => "None"
  | Json.bool b => if b then "True" else "False"
  | Json.num n => toString n
  | Json.str s => s
  | Json.arr elems => "[" ++ pyStrList elems ++ "]"
  | Json.obj fields => "dict of " ++ pyStrFields fields

def pyStrList : List Json → String
  | [] => ""
  | [x] => pyStr x
  | x :: y :: rest => pyStr x ++ ", " ++ pyStrList (y :: rest)

def pyStrFields : List (String × Json) → String
  | [] => ""
  | (k, v) :: rest => k ++ ": " ++ pyStr v ++ " " ++ pyStrFields rest

end

/-- Python dict update as in the expression that merges the caller's
payload with the verified user id: the value at an existing key is replaced
in place, a missing key is appended.  Callers pass lists with distinct keys
(every Python dict has distinct keys). -/
def dictSet : List (String × Json) → String → Json → List (String × Json)
  | [], k, v => [(k, v)]
  | (k0, v0) :: rest, k, v =>
      if k0 = k then (k, v) :: rest else (k0, v0) :: dictSet rest k v

/-- Number of entries of an association list carrying a given key. -/
def countKey (d : List (String × Json)) (k : String) : Nat :=
  d.countP (fun p => p.1 == k)

/-- An outbound HTTP request issued by the gateway.  The service field
records which ServiceRegistry entry the URL was built from (in the source
every outbound URL is an f-string over one SERVICES entry). -/
structure Request where
  service : String
  method : String
  url : String
  headers : List (String × String)
  query : List (String × String)
  body : Option Json

/-- What the network yields for one outbound call: either a response with a
status code and a body (some j when the body parses as JSON j, none when
calling .json() on it would raise), or a raised transport error
(connection failure / timeout, httpx exception). -/
inductive NetResult where
  | response (status : Nat) (body : Option Json)
  | netError

/-- Outcome of one gateway handler: a JSON success body, or an HTTP error
status with a detail string (an HTTPException, or the framework's own
response for an uncaught exception). -/
inductive HandlerOut where
  | success (body : Json)
  | failure (status : Nat) (detail : String)

/-- True exactly on the success constructor. -/
def isSuccessOut : HandlerOut → Bool
  | HandlerOut.success _ => true
  | HandlerOut.failure _ _ => false

-- Service registry: defaults of os.getenv in the source.

def AUTH_SERVICE_URL : String := "http://auth-service:8001"

def PROJECT_SERVICE_URL : String := "http://project-service:8002"

def CARBON_SERVICE_URL : String := "http://carbon-service:8003"

def MONITORING_SERVICE_URL : String := "http://monitoring-service:8004"

/-- SERVICES dict of the gateway, in its insertion order. -/
def SERVICES : List (String × String) :=
  [("auth", AUTH_SERVICE_URL),
   ("projects", PROJECT_SERVICE_URL),
   ("carbon", CARBON_SERVICE_URL),
   ("monitoring", MONITORING_SERVICE_URL)]

/-- The per-probe timeout (seconds) of the health check's HTTP client. -/
def TIMEOUT : Nat := 5

-- Token verification (gateway side).

/-- The verification request the gateway builds: POST to the auth backend's
verify path, the credential forwarded as an Authorization bearer header,
with no query parameters and no body. -/
def verifyRequest (token : String) : Request :=
  { service := "auth"
    method := "POST"
    url := AUTH_SERVICE_URL ++ "/verify"
    headers := [("Authorization", "Bearer " ++ token)]
    query := []
    body := none }

/-- Outcome of the try-block of verify_token before its bare except clause
runs: the body either returns the parsed JSON, or raises.  It raises the
401 HTTPException when the auth response status is not 200, a transport
exception when the client call fails, and a parse exception when the body
is not JSON. -/
inductive TryOutcome where
  | ret (j : Json)
  | httpExc (status : Nat) (detail : String)
  | netExc
  | parseExc

/-- The try-block of the gateway's verify_token: one POST to the auth
backend; a non-200 status raises HTTPException 401 Invalid token, otherwise
the parsed body is returned. -/
def verifyTryBody (net : Request → NetResult) (token : String) : TryOutcome :=
  match net (verifyRequest token) with
  | NetResult.netError => TryOutcome.netExc
  | NetResult.response status body =>
      if status = 200 then
        match body with
        | some j => TryOutcome.ret j
        | none => TryOutcome.parseExc
      else TryOutcome.httpExc 401 "Invalid token"

/-- The gateway's verify_token dependency.  A missing credential is
rejected by the HTTPBearer dependency with 403 Not authenticated before any
network call.  Otherwise the try-block runs, and the bare except clause
turns EVERY raised exception - including the 401 HTTPException the block
itself raises on a non-200 auth response - into the 503
Auth service unavailable error.  Returns the outcome and the trace of
outbound requests. -/
def verify_token (net : Request → NetResult) (credentials : Option String) :
    Except (Nat × String) Json × List Request :=
  match credentials with
  | none => (Except.error (403, "Not authenticated"), [])
  | some token =>
      (match verifyTryBody net token with
       | TryOutcome.ret j => Except.ok j
       | _ => Except.error (503, "Auth service unavailable"),
       [verifyRequest token])

-- Health check.

/-- Classification of one probe result: 200 is healthy, any other status is
unhealthy, a raised transport error is unreachable. -/
def classify : NetResult → String
  | NetResult.response status _ => if status = 200 then "healthy" else "unhealthy"
  | NetResult.netError => "unreachable"

/-- The GET request probing one registered service's health endpoint. -/
def healthRequest (name url : String) : Request :=
  { service := name
    method := "GET"
    url := url ++ "/health"
    headers := []
    query := []
    body := none }

/-- The health_check handler: starts from the gateway's own entry, then
probes every registered service in registry order, classifying each result;
a failed probe contributes its entry and the loop continues. -/
def health_check (net : Request → NetResult) : List (String × String) :=
  ("gateway", "healthy") ::
    SERVICES.map (fun p => (p.1, classify (net (healthRequest p.1 p.2))))

/-- The health_check handler with time accounted.  The probe yields, per
service URL, the network result and the elapsed seconds of that probe (the
client timeout caps each probe at TIMEOUT).  The probes are awaited one
after the other in a for loop, so the elapsed time of the handler is the
SUM of the per-probe elapsed times. -/
def health_check_timed (probe : String → NetResult × Nat) :
    List (String × String) × Nat :=
  (("gateway", "healthy") ::
     SERVICES.map (fun p => (p.1, classify (probe p.2).1)),
   (SERVICES.map (fun p => (probe p.2).2)).sum)

-- Create project.

/-- The request create_project forwards to the projects backend: the
caller's payload with created_by set to the verified user id, and the
X-User-Id propagation header holding str() of that id. -/
def createProjectRequest (projectData : List (String × Json)) (uid : Json) :
    Request :=
  { service := "projects"
    method := "POST"
    url := PROJECT_SERVICE_URL ++ "/projects"
    headers := [("X-User-Id", pyStr uid)]
    query := []
    body := some (Json.obj (dictSet projectData "created_by" uid)) }

/-- The create_project handler: verify the token (its failure propagates),
read user_id from the identity (a missing field is an uncaught KeyError,
surfaced by the framework as 500), issue the one backend call, and return
the parsed response body REGARDLESS of the backend's status code; a raised
transport or parse error is uncaught and surfaces as 500. -/
def create_project (net : Request → NetResult) (credentials : Option String)
    (projectData : List (String × Json)) : HandlerOut × List Request :=
  match verify_token net credentials with
  | (Except.error e, trace) => (HandlerOut.failure e.1 e.2, trace)
  | (Except.ok userData, trace) =>
      match getField userData "user_id" with
      | none => (HandlerOut.failure 500 "Internal Server Error", trace)
      | some uid =>
          let req := createProjectRequest projectData uid
          match net req with
          | NetResult.netError =>
              (HandlerOut.failure 500 "Internal Server Error", trace ++ [req])
          | NetResult.response _ body =>
              match body with
              | none => (HandlerOut.failure 500 "Internal Server Error", trace ++ [req])
              | some j => (HandlerOut.success j, trace ++ [req])

-- Dashboard.

/-- The projects-by-user request of get_dashboard. -/
def projectsUserRequest (uid : Json) : Request :=
  { service := "projects"
    method := "GET"
    url := PROJECT_SERVICE_URL ++ ("/projects/user/" ++ pyStr uid)
    headers := []
    query := []
    body := none }

/-- The carbon-footprint request of get_dashboard. -/
def carbonRequest (uid : Json) : Request :=
  { service := "carbon"
    method := "GET"
    url := CARBON_SERVICE_URL ++ ("/footprint/" ++ pyStr uid)
    headers := []
    query := []
    body := none }

/-- The get_dashboard handler: verify the token, read user_id, await the
projects call, then await the carbon call, then parse both bodies and
return the composite object.  A raised transport error on the projects
call means the carbon call is never issued; every uncaught exception
surfaces as 500.  Statuses of the two sub-responses are never examined. -/
def get_dashboard (net : Request → NetResult) (credentials : Option String) :
    HandlerOut × List Request :=
  match verify_token net credentials with
  | (Except.error e, trace) => (HandlerOut.failure e.1 e.2, trace)
  | (Except.ok userData, trace) =>
      match getField userData "user_id" with
      | none => (HandlerOut.failure 500 "Internal Server Error", trace)
      | some uid =>
          let req1 := projectsUserRequest uid
          match net req1 with
          | NetResult.netError =>
              (HandlerOut.failure 500 "Internal Server Error", trace ++ [req1])
          | NetResult.response _ body1 =>
              let req2 := carbonRequest uid
              match net req2 with
              | NetResult.netError =>
                  (HandlerOut.failure 500 "Internal Server Error",
                   trace ++ [req1, req2])
              | NetResult.response _ body2 =>
                  match body1 with
                  | none =>
                      (HandlerOut.failure 500 "Internal Server Error",
                       trace ++ [req1, req2])
                  | some j1 =>
                      match body2 with
                      | none =>
                          (HandlerOut.failure 500 "Internal Server Error",
                           trace ++ [req1, req2])
                      | some j2 =>
                          (HandlerOut.success
                             (Json.obj [("projects", j1), ("carbon_footprint", j2)]),
                           trace ++ [req1, req2])

namespace AuthService

/-- Result of jwt.decode on a token: a payload, or one of the two failures
the endpoint catches.  The jwt library is external, so decoding is a
parameter of the endpoint. -/
inductive JwtResult where
  | ok (payload : List (String × Json))
  | expired
  | invalid

/-- The auth service's POST verify endpoint (src/auth-service/main.py).
Its token argument is declared as a plain str parameter of the handler
function, which the framework reads as a REQUIRED QUERY PARAMETER; a
request without a token query parameter is rejected with a 422 validation
error before the handler body runs.  With a token: an expired or invalid
token yields 401; a decoded payload yields 200 with an object holding
user_id and email read from the payload (a payload missing either key
raises an uncaught KeyError, surfaced as 500). -/
def verify_token (decode : String → JwtResult) (req : Request) :
    Nat × Option Json :=
  match getVal req.query "token" with
  | none => (422, some (Json.obj [("detail", Json.str "Field required")]))
  | some token =>
      match decode token with
      | JwtResult.expired =>
          (401, some (Json.obj [("detail", Json.str "Token expired")]))
      | JwtResult.invalid =>
          (401, some (Json.obj [("detail", Json.str "Invalid token")]))
      | JwtResult.ok payload =>
          match getVal payload "user_id" with
          | none => (500, none)
          | some uid =>
              match getVal payload "sub" with
              | none => (500, none)
              | some sub =>
                  (200, some (Json.obj [("user_id", uid), ("email", sub)]))

end AuthService

-- Concrete network environments used by counterexamples and witnesses.

/-- A network where the auth backend answers 401 to the verification call
(an invalid or expired token) and every data backend is unreachable. -/
def c1Net : Request → NetResult := fun r =>
  if r.service = "auth" then
    NetResult.response 401 (some (Json.obj [("detail", Json.str "Invalid token")]))
  else NetResult.netError

/-- A network where every call gets a 401 response with a JSON body. -/
def c2NetBad : Request → NetResult := fun _ =>
  NetResult.response 401 (some (Json.obj [("detail", Json.str "Invalid token")]))

/-- A network where every call raises a transport error. -/
def c2NetDown : Request → NetResult := fun _ => NetResult.netError

/-- The identity body used by the dashboard counterexample. -/
def c4Ident : Json := Json.obj [("user_id", Json.num 7), ("email", Json.str "u@eco.org")]

/-- The error body the projects backend returns with status 500. -/
def c4ErrBody : Json := Json.obj [("detail", Json.str "database down")]

/-- The body the carbon backend returns with status 200. -/
def c4CarbonBody : Json := Json.obj [("total_emissions", Json.num 10)]

/-- A network where verification succeeds, the projects backend answers
500 with an error body, and the carbon backend answers 200. -/
def c4Net : Request → NetResult := fun r =>
  if r.service = "auth" then NetResult.response 200 (some c4Ident)
  else if r.service = "projects" then NetResult.response 500 (some c4ErrBody)
  else NetResult.response 200 (some c4CarbonBody)

/-- The identity body used by the create-project counterexample. -/
def c6Ident : Json := Json.obj [("user_id", Json.num 3), ("email", Json.str "a@eco.org")]

/-- The error body the projects backend returns with status 503. -/
def c6ErrBody : Json := Json.obj [("detail", Json.str "service overloaded")]

/-- A network where verification succeeds and the projects backend answers
503 with an error body. -/
def c6Net : Request → NetResult := fun r =>
  if r.service = "auth" then NetResult.response 200 (some c6Ident)
  else NetResult.response 503 (some c6ErrBody)

/-- A timed probe where the auth backend hangs until the 5-second timeout
and each of the three other backends answers healthily in 2 seconds. -/
def c7Probe : String → NetResult × Nat := fun url =>
  if url = AUTH_SERVICE_URL then (NetResult.netError, TIMEOUT)
  else (NetResult.response 200 (some (Json.obj [])), 2)

/-- A decoder that accepts exactly one token, with a payload carrying
user_id 42 and subject a@eco.org. -/
def c8Decode : String → AuthService.JwtResult := fun t =>
  if t = "goodtok" then
    AuthService.JwtResult.ok [("user_id", Json.num 42), ("sub", Json.str "a@eco.org")]
  else AuthService.JwtResult.invalid

/-- A well-formed direct request to the auth verify endpoint, carrying the
token where the endpoint actually reads it: the token query parameter. -/
def c8GoodReq : Request :=
  { service := "auth"
    method := "POST"
    url := AUTH_SERVICE_URL ++ "/verify"
    headers := []
    query := [("token", "goodtok")]
    body := none }

/-- The network obtained by wiring the gateway to the real auth verify
endpoint running c8Decode. -/
def c8World : Request → NetResult := fun r =>
  NetResult.response (AuthService.verify_token c8Decode r).1
    (AuthService.verify_token c8Decode r).2

/-- A network whose auth backend answers 200 with an identity for user 42,
and whose data backends answer 200 with an empty object. -/
def w5Net : Request → NetResult := fun r =>
  if r.service = "auth" then
    NetResult.response 200 (some (Json.obj [("user_id", Json.num 42), ("email", Json.str "w@eco.org")]))
  else NetResult.response 200 (some (Json.obj []))

/-- The payload used by the create-project witness. -/
def w5Payload : List (String × Json) :=
  [("name", Json.str "Tree planting"), ("budget", Json.num 100)]

/-- A network where every call raises a transport error, used with a
missing credential (no call is ever issued). -/
def w1Net : Request → NetResult := fun _ => NetResult.netError

/-- The identity body used by the verification-wellformedness witness. -/
def c9Ident : Json := Json.obj [("user_id", Json.num 1), ("email", Json.str "x@eco.org")]

/-- A network whose every response is 200 with the c9Ident body. -/
def w9Net : Request → NetResult := fun _ => NetResult.response 200 (some c9Ident)

/-- A network where auth and projects answer 200 with an identity body and
the carbon backend is unreachable. -/
def w10Net : Request → NetResult := fun r =>
  if r.service = "carbon" then NetResult.netError
  else NetResult.response 200 (some (Json.obj [("user_id", Json.num 9)]))

-- Helper lemmas shared by several developments below.

/-- When the auth backend answers 200 with a parseable body, the gateway's
verify_token returns that body and the one verification request. -/
theorem verify_token_ok (net : Request → NetResult) (tok : String) (j : Json)
    (h : net (verifyRequest tok) = NetResult.response 200 (some j)) :
    verify_token net (some tok) = (Except.ok j, [verifyRequest tok]) := by
  simp [verify_token, verifyTryBody, h]

/-- Inversion: verify_token only hands out bodies that came from a 200
response of the auth backend on the verification request. -/
theorem verifyTryBody_ret (net : Request → NetResult) (tok : String) (j : Json)
    (h : verifyTryBody net tok = TryOutcome.ret j) :
    net (verifyRequest tok) = NetResult.response 200 (some j) := by
  unfold verifyTryBody at h
  cases hn : net (verifyRequest tok) with
  | netError => rw [hn] at h; simp at h
  | response status body =>
      rw [hn] at h
      by_cases hs : status = 200
      · subst hs
        cases body with
        | none => simp at h
        | some j0 =>
            simp at h
            simp [h]
      · simp [hs] at h

/-- Setting a key of a dict always makes that key map to the new value. -/
theorem getVal_dictSet (pd : List (String × Json)) (k : String) (v : Json) :
    getVal (dictSet pd k v) k = some v := by
  induction pd with
  | nil => simp [dictSet, getVal]
  | cons hd tl ih =>
      by_cases hk : hd.1 = k
      · simp [dictSet, hk, getVal]
      · simp [dictSet, hk, getVal, ih]

/-- Setting a key of a dict with distinct keys leaves exactly one entry
carrying that key. -/
theorem countKey_dictSet (pd : List (String × Json)) (k : String) (v : Json)
    (hnd : (pd.map Prod.fst).Nodup) :
    countKey (dictSet pd k v) k = 1 := by
  induction pd with
  | nil => simp [dictSet, countKey]
  | cons hd tl ih =>
      have hnd2 : (tl.map Prod.fst).Nodup := (List.nodup_cons.mp (by simpa using hnd)).2
      have hne : hd.1 ∉ tl.map Prod.fst := (List.nodup_cons.mp (by simpa using hnd)).1
      by_cases hk : hd.1 = k
      · subst hk
        simp only [dictSet, if_pos rfl, countKey, List.countP_cons]
        have h0 : tl.countP (fun p => p.1 == hd.1) = 0 := by
          rw [List.countP_eq_zero]
          intro a ha hc
          exact hne (by
            have : a.1 = hd.1 := by simpa using hc
            exact this ▸ List.mem_map_of_mem Prod.fst ha)
        simp [h0]
      · simp only [dictSet, if_neg hk, countKey, List.countP_cons]
        have := ih hnd2
        simp only [countKey] at this
        simp [this, hk]

/-- Claim C1, counterexample: with an invalid bearer token (the auth
backend answers 401), both protected endpoints surface the 503
Auth service unavailable failure, not an Unauthenticated (401-equivalent or
403-equivalent) one, because the bare except clause of verify_token
converts the 401 it itself raised into 503. -/
theorem c1_counterexample :
    (create_project c1Net (some "badtok") []).1
        = HandlerOut.failure 503 "Auth service unavailable"
    ∧ (get_dashboard c1Net (some "badtok")).1
        = HandlerOut.failure 503 "Auth service unavailable"
    ∧ (503 : Nat) ≠ 401 ∧ (503 : Nat) ≠ 403 :=
  ⟨rfl, rfl, by decide, by decide⟩

/-- Claim C2: the code bug evaluated.  On a non-200 auth response the
try-block of verify_token raises the 401 Invalid token HTTPException - the
code's own distinct invalid-credential error - but the bare except clause
converts it into the 503 Auth service unavailable failure, the very output
produced when the auth backend is unreachable: the two failure kinds are
conflated. -/
theorem c2_conflation_bug :
    verifyTryBody c2NetBad "sometok" = TryOutcome.httpExc 401 "Invalid token"
    ∧ (verify_token c2NetBad (some "sometok")).1
        = Except.error (503, "Auth service unavailable")
    ∧ (verify_token c2NetBad (some "sometok")).1
        = (verify_token c2NetDown (some "sometok")).1 :=
  ⟨rfl, rfl, rfl⟩

/-- Claim C4, counterexample: the projects backend answers status 500 with
an error body, yet get_dashboard returns a gateway-level SUCCESS whose
projects key holds that error body - the request does not fail on a non-2xx
sub-response. -/
theorem c4_counterexample :
    (get_dashboard c4Net (some "tok")).1
        = HandlerOut.success
            (Json.obj [("projects", c4ErrBody), ("carbon_footprint", c4CarbonBody)])
    ∧ isSuccessOut (get_dashboard c4Net (some "tok")).1 = true :=
  ⟨rfl, rfl⟩

/-- Claim C6, counterexample: the projects backend answers status 503 with
an error body, yet create_project returns that body as a gateway-level
success; the status is discarded, no BackendError carrying it is
propagated. -/
theorem c6_counterexample :
    (create_project c6Net (some "tok") w5Payload).1 = HandlerOut.success c6ErrBody
    ∧ isSuccessOut (create_project c6Net (some "tok") w5Payload).1 = true :=
  ⟨rfl, rfl⟩

/-- Claim C7, counterexample: with the auth probe hanging to the 5-second
timeout and the three other probes taking 2 seconds each - every probe
within the per-probe timeout - the serial health check takes 11 seconds,
more than twice the timeout period, refuting the claimed bound of
approximately one timeout period. -/
theorem c7_counterexample :
    (health_check_timed c7Probe).2 = 11
    ∧ 2 * TIMEOUT < (health_check_timed c7Probe).2
    ∧ (c7Probe AUTH_SERVICE_URL).2 = TIMEOUT
    ∧ (c7Probe PROJECT_SERVICE_URL).2 = 2
    ∧ (c7Probe CARBON_SERVICE_URL).2 = 2
    ∧ (c7Probe MONITORING_SERVICE_URL).2 = 2 :=
  ⟨rfl, by decide, rfl, rfl, rfl, rfl⟩

/-- Claim C8: the interface mismatch evaluated.  The auth verify endpoint
reads the token from a required query parameter, while the gateway sends it
only in the Authorization header: every gateway-built verification request
is rejected with 422, for every decoder and every token; the same endpoint
answers 200 with the identity when the token is passed as the query
parameter; and wiring the gateway to the real endpoint makes even a validly
signed token fail with 503 at the gateway. -/
theorem c8_interface_mismatch :
    (∀ decode : String → AuthService.JwtResult, ∀ t : String,
        (AuthService.verify_token decode (verifyRequest t)).1 = 422)
    ∧ AuthService.verify_token c8Decode c8GoodReq
        = (200, some (Json.obj [("user_id", Json.num 42), ("email", Json.str "a@eco.org")]))
    ∧ (verify_token c8World (some "goodtok")).1
        = Except.error (503, "Auth service unavailable") :=
  ⟨fun _ _ => rfl, rfl, rfl⟩

/-- Claim C3: every health-check report holds exactly one entry per
registered service plus the gateway entry - its keys are exactly gateway,
auth, projects, carbon, monitoring in that order, whatever the probes do -
the gateway entry is always healthy, each service entry is the
classification of that service's probe, and a probe is classified healthy
on a 200 status, unhealthy on any other status, unreachable on a raised
transport error. -/
theorem c3_health_report (net : Request → NetResult) :
    (health_check net).map Prod.fst
        = ["gateway", "auth", "projects", "carbon", "monitoring"]
    ∧ getVal (health_check net) "gateway" = some "healthy"
    ∧ getVal (health_check net) "auth"
        = some (classify (net (healthRequest "auth" AUTH_SERVICE_URL)))
    ∧ getVal (health_check net) "projects"
        = some (classify (net (healthRequest "projects" PROJECT_SERVICE_URL)))
    ∧ getVal (health_check net) "carbon"
        = some (classify (net (healthRequest "carbon" CARBON_SERVICE_URL)))
    ∧ getVal (health_check net) "monitoring"
        = some (classify (net (healthRequest "monitoring" MONITORING_SERVICE_URL)))
    ∧ (∀ (status : Nat) (body : Option Json),
        classify (NetResult.response status body)
          = if status = 200 then "healthy" else "unhealthy")
    ∧ classify NetResult.netError = "unreachable" :=
  ⟨rfl, rfl, rfl, rfl, rfl, rfl, fun _ _ => rfl, rfl⟩

/-- Claim C7, amended: the health probes are awaited one after the other,
so the report's latency is the sum of the per-probe latencies: it is
bounded by the number of registered services times the per-probe timeout,
and conversely any common lower bound on the per-probe latencies scales by
the number of services - serial cost, not one timeout period. -/
theorem c7_amended (probe : String → NetResult × Nat) :
    ((∀ p ∈ SERVICES, (probe p.2).2 ≤ TIMEOUT) →
        (health_check_timed probe).2 ≤ SERVICES.length * TIMEOUT)
    ∧ (∀ t : Nat, (∀ p ∈ SERVICES, t ≤ (probe p.2).2) →
        SERVICES.length * t ≤ (health_check_timed probe).2) := by
  constructor
  · intro h
    have h1 := h ("auth", AUTH_SERVICE_URL) (by simp [SERVICES])
    have h2 := h ("projects", PROJECT_SERVICE_URL) (by simp [SERVICES])
    have h3 := h ("carbon", CARBON_SERVICE_URL) (by simp [SERVICES])
    have h4 := h ("monitoring", MONITORING_SERVICE_URL) (by simp [SERVICES])
    simp only [health_check_timed, SERVICES, TIMEOUT, List.map_cons, List.map_nil,
      List.sum_cons, List.sum_nil, List.length_cons, List.length_nil] at h1 h2 h3 h4 ⊢
    omega
  · intro t h
    have h1 := h ("auth", AUTH_SERVICE_URL) (by simp [SERVICES])
    have h2 := h ("projects", PROJECT_SERVICE_URL) (by simp [SERVICES])
    have h3 := h ("carbon", CARBON_SERVICE_URL) (by simp [SERVICES])
    have h4 := h ("monitoring", MONITORING_SERVICE_URL) (by simp [SERVICES])
    simp only [health_check_timed, SERVICES, TIMEOUT, List.map_cons, List.map_nil,
      List.sum_cons, List.sum_nil, List.length_cons, List.length_nil] at h1 h2 h3 h4 ⊢
    omega

/-- Claim C7, amended, witness: with every probe taking exactly the
timeout, the serial report takes four timeout periods. -/
theorem c7_amended_witness :
    (health_check_timed (fun _ => (NetResult.netError, TIMEOUT))).2
      ≤ SERVICES.length * TIMEOUT :=
  (c7_amended (fun _ => (NetResult.netError, TIMEOUT))).1 (fun _ _ => by decide)

/-- Claim C1, amended: whenever token verification fails - a missing
credential is rejected with 403 before any network call, an invalid or
expired credential is surfaced as 503 rather than as an Unauthenticated
error because of the bare except clause - both protected endpoints return
that failure and make zero calls to any data backend: their traces contain
no projects or carbon request. -/
theorem c1_amended (net : Request → NetResult) (credentials : Option String)
    (projectData : List (String × Json)) (e : Nat × String) (trace : List Request)
    (h : verify_token net credentials = (Except.error e, trace)) :
    create_project net credentials projectData = (HandlerOut.failure e.1 e.2, trace)
    ∧ get_dashboard net credentials = (HandlerOut.failure e.1 e.2, trace)
    ∧ trace.filter (fun r => r.service == "projects" || r.service == "carbon") = []
    ∧ (credentials = none →
        verify_token net credentials = (Except.error (403, "Not authenticated"), [])) := by
  have hc : create_project net credentials projectData
      = (HandlerOut.failure e.1 e.2, trace) := by
    unfold create_project; rw [h]
  have hd : get_dashboard net credentials = (HandlerOut.failure e.1 e.2, trace) := by
    unfold get_dashboard; rw [h]
  have htr : trace = [] ∨ ∃ tok, trace = [verifyRequest tok] := by
    cases credentials with
    | none =>
        left
        have h2 := congrArg Prod.snd h
        simpa [verify_token] using h2.symm
    | some tok =>
        right
        refine ⟨tok, ?_⟩
        have h2 := congrArg Prod.snd h
        simpa [verify_token] using h2.symm
  refine ⟨hc, hd, ?_, ?_⟩
  · rcases htr with htr | ⟨tok, htr⟩ <;> subst htr <;> rfl
  · intro hn
    subst hn
    rfl

/-- Claim C1, amended, witness: with no credential supplied, create-project
and get-dashboard fail with the 403 Not authenticated error and the trace
of outbound requests is empty. -/
theorem c1_amended_witness :
    verify_token w1Net none = (Except.error (403, "Not authenticated"), [])
    ∧ (create_project w1Net none [] = (HandlerOut.failure 403 "Not authenticated", [])
       ∧ get_dashboard w1Net none = (HandlerOut.failure 403 "Not authenticated", [])
       ∧ List.filter (fun r => r.service == "projects" || r.service == "carbon")
           ([] : List Request) = []
       ∧ ((none : Option String) = none →
            verify_token w1Net none = (Except.error (403, "Not authenticated"), []))) :=
  ⟨rfl, c1_amended w1Net none [] (403, "Not authenticated") [] rfl⟩

/-- Claim C4, amended: with a verified identity, if both sub-backends
respond with parseable bodies then get_dashboard succeeds with the
composite object holding both bodies under the projects and
carbon_footprint keys REGARDLESS of the two response statuses (a non-2xx
sub-response does not fail the request); only a raised transport error on
either sub-call fails the whole request, surfaced as the uncaught-exception
500 failure, with nothing substituted for the failed sub-resource. -/
theorem c4_amended (net : Request → NetResult) (tok : String) (j u : Json)
    (h1 : net (verifyRequest tok) = NetResult.response 200 (some j))
    (h2 : getField j "user_id" = some u) :
    (∀ (s1 : Nat) (b1 : Json) (s2 : Nat) (b2 : Json),
        net (projectsUserRequest u) = NetResult.response s1 (some b1) →
        net (carbonRequest u) = NetResult.response s2 (some b2) →
        get_dashboard net (some tok)
          = (HandlerOut.success
               (Json.obj [("projects", b1), ("carbon_footprint", b2)]),
             [verifyRequest tok, projectsUserRequest u, carbonRequest u]))
    ∧ (net (projectsUserRequest u) = NetResult.netError →
        (get_dashboard net (some tok)).1
          = HandlerOut.failure 500 "Internal Server Error")
    ∧ (∀ (s1 : Nat) (b1 : Option Json),
        net (projectsUserRequest u) = NetResult.response s1 b1 →
        net (carbonRequest u) = NetResult.netError →
        (get_dashboard net (some tok)).1
          = HandlerOut.failure 500 "Internal Server Error") := by
  have hv := verify_token_ok net tok j h1
  refine ⟨?_, ?_, ?_⟩
  · intro s1 b1 s2 b2 hp hcb
    unfold get_dashboard
    rw [hv]
    simp [h2, hp, hcb]
  · intro hp
    unfold get_dashboard
    rw [hv]
    simp [h2, hp]
  · intro s1 b1 hp hcb
    unfold get_dashboard
    rw [hv]
    simp [h2, hp, hcb]

/-- Claim C4, amended, witness: the projects backend answers 500 with an
error body, the carbon backend 200, and the dashboard reports a composite
holding both bodies. -/
theorem c4_amended_witness :
    get_dashboard c4Net (some "tok")
      = (HandlerOut.success
           (Json.obj [("projects", c4ErrBody), ("carbon_footprint", c4CarbonBody)]),
         [verifyRequest "tok", projectsUserRequest (Json.num 7),
          carbonRequest (Json.num 7)]) :=
  (c4_amended c4Net "tok" c4Ident (Json.num 7) rfl rfl).1
    500 c4ErrBody 200 c4CarbonBody rfl rfl

/-- Claim C5: with a verified identity carrying user id u, create_project
forwards exactly one request to the projects backend; its JSON body is the
caller's payload with created_by set to u - present at exactly one key -
and its headers are exactly one X-User-Id header holding str(u). -/
theorem c5_identity_propagation (net : Request → NetResult) (tok : String)
    (j u : Json) (pd : List (String × Json))
    (h1 : net (verifyRequest tok) = NetResult.response 200 (some j))
    (h2 : getField j "user_id" = some u)
    (h3 : (pd.map Prod.fst).Nodup) :
    (create_project net (some tok) pd).2.filter (fun r => r.service == "projects")
        = [createProjectRequest pd u]
    ∧ (createProjectRequest pd u).body = some (Json.obj (dictSet pd "created_by" u))
    ∧ countKey (dictSet pd "created_by" u) "created_by" = 1
    ∧ getVal (dictSet pd "created_by" u) "created_by" = some u
    ∧ (createProjectRequest pd u).headers = [("X-User-Id", pyStr u)]
    ∧ ((createProjectRequest pd u).headers.filter
          (fun p => p.1 == "X-User-Id")).length = 1 := by
  have hv := verify_token_ok net tok j h1
  have htr : (create_project net (some tok) pd).2
      = [verifyRequest tok, createProjectRequest pd u] := by
    unfold create_project
    rw [hv]
    cases hb : net (createProjectRequest pd u) with
    | netError => simp [h2, hb]
    | response s b => cases b <;> simp [h2, hb]
  refine ⟨?_, rfl, countKey_dictSet pd _ u h3, getVal_dictSet pd _ u, rfl, rfl⟩
  rw [htr]
  rfl

/-- Claim C5, witness: user 42 creating a project with a two-field payload
produces one projects request with created_by 42 and one X-User-Id header
holding 42. -/
theorem c5_witness :
    ((w5Payload.map Prod.fst).Nodup)
    ∧ ((create_project w5Net (some "tok") w5Payload).2.filter
          (fun r => r.service == "projects")
        = [createProjectRequest w5Payload (Json.num 42)]
      ∧ (createProjectRequest w5Payload (Json.num 42)).body
          = some (Json.obj (dictSet w5Payload "created_by" (Json.num 42)))
      ∧ countKey (dictSet w5Payload "created_by" (Json.num 42)) "created_by" = 1
      ∧ getVal (dictSet w5Payload "created_by" (Json.num 42)) "created_by"
          = some (Json.num 42)
      ∧ (createProjectRequest w5Payload (Json.num 42)).headers
          = [("X-User-Id", pyStr (Json.num 42))]
      ∧ ((createProjectRequest w5Payload (Json.num 42)).headers.filter
            (fun p => p.1 == "X-User-Id")).length = 1) :=
  ⟨by decide,
   c5_identity_propagation w5Net "tok"
     (Json.obj [("user_id", Json.num 42), ("email", Json.str "w@eco.org")])
     (Json.num 42) w5Payload rfl rfl (by decide)⟩

/-- Claim C6, amended: with a verified identity, when the projects backend
responds at all, create_project returns the backend's parsed body as its
own success REGARDLESS of the backend's status - the status is discarded,
no BackendError carrying status and body is propagated - and a raised
transport error surfaces as the uncaught-exception 500 failure. -/
theorem c6_amended (net : Request → NetResult) (tok : String) (j u : Json)
    (pd : List (String × Json))
    (h1 : net (verifyRequest tok) = NetResult.response 200 (some j))
    (h2 : getField j "user_id" = some u) :
    (∀ (s : Nat) (b : Json),
        net (createProjectRequest pd u) = NetResult.response s (some b) →
        create_project net (some tok) pd
          = (HandlerOut.success b, [verifyRequest tok, createProjectRequest pd u]))
    ∧ (net (createProjectRequest pd u) = NetResult.netError →
        (create_project net (some tok) pd).1
          = HandlerOut.failure 500 "Internal Server Error") := by
  have hv := verify_token_ok net tok j h1
  constructor
  · intro s b hb
    unfold create_project
    rw [hv]
    simp [h2, hb]
  · intro hb
    unfold create_project
    rw [hv]
    simp [h2, hb]

/-- Claim C6, amended, witness: the projects backend answers 503 with an
error body and create_project returns that body as a success. -/
theorem c6_amended_witness :
    create_project c6Net (some "tok") w5Payload
      = (HandlerOut.success c6ErrBody,
         [verifyRequest "tok", createProjectRequest w5Payload (Json.num 3)]) :=
  (c6_amended c6Net "tok" c6Ident (Json.num 3) w5Payload rfl rfl).1
    503 c6ErrBody rfl

/-- Claim C9: whenever the auth backend's verify endpoint responds 200, its
body is an object whose first field is user_id (a payload missing the field
makes the endpoint fail with 500, never 200); and the gateway's
verify_token hands a body downstream only when the auth backend responded
200 with exactly that body - so no orchestrator operation receives an
identity this auth backend built without user_id. -/
theorem c9_identity_wellformed :
    (∀ (decode : String → AuthService.JwtResult) (req : Request),
        (AuthService.verify_token decode req).1 = 200 →
        ∃ uid em, (AuthService.verify_token decode req).2
            = some (Json.obj [("user_id", uid), ("email", em)]))
    ∧ (∀ (net : Request → NetResult) (credentials : Option String)
          (j : Json) (trace : List Request),
        verify_token net credentials = (Except.ok j, trace) →
        ∃ tok, credentials = some tok
          ∧ net (verifyRequest tok) = NetResult.response 200 (some j)) := by
  constructor
  · intro decode req h
    cases hq : getVal req.query "token" with
    | none => simp [AuthService.verify_token, hq] at h
    | some t =>
        cases hd : decode t with
        | expired => simp [AuthService.verify_token, hq, hd] at h
        | invalid => simp [AuthService.verify_token, hq, hd] at h
        | ok payload =>
            cases hu : getVal payload "user_id" with
            | none => simp [AuthService.verify_token, hq, hd, hu] at h
            | some uid =>
                cases hs2 : getVal payload "sub" with
                | none => simp [AuthService.verify_token, hq, hd, hu, hs2] at h
                | some sub =>
                    refine ⟨uid, sub, ?_⟩
                    simp [AuthService.verify_token, hq, hd, hu, hs2]
  · intro net credentials j trace h
    cases credentials with
    | none => simp [verify_token] at h
    | some tok =>
        refine ⟨tok, rfl, ?_⟩
        have h1 := congrArg Prod.fst h
        simp only [verify_token] at h1
        cases hb : verifyTryBody net tok with
        | ret j0 =>
            rw [hb] at h1
            simp at h1
            have hnet := verifyTryBody_ret net tok j0 hb
            rw [← h1]
            exact hnet
        | httpExc s d => rw [hb] at h1; simp at h1
        | netExc => rw [hb] at h1; simp at h1
        | parseExc => rw [hb] at h1; simp at h1

/-- Claim C9, witness: a direct verify call carrying a decodable token
yields a body whose user_id is present, and a gateway verification that
succeeds came from a 200 response with that very body. -/
theorem c9_witness :
    (∃ uid em, (AuthService.verify_token c8Decode c8GoodReq).2
        = some (Json.obj [("user_id", uid), ("email", em)]))
    ∧ (∃ tok, (some "anytok" : Option String) = some tok
        ∧ w9Net (verifyRequest tok) = NetResult.response 200 (some c9Ident)) :=
  ⟨c9_identity_wellformed.1 c8Decode c8GoodReq rfl,
   c9_identity_wellformed.2 w9Net (some "anytok") c9Ident
     [verifyRequest "anytok"] rfl⟩

/-- Claim C10: with a verified identity, get_dashboard issues its two
sub-fetches sequentially in a fixed order - the projects request first,
then the carbon request - and when the projects call raises a transport
error the carbon request is never issued: the trace stops at the projects
request and contains no carbon request. -/
theorem c10_sequential_fanout (net : Request → NetResult) (tok : String)
    (j u : Json)
    (h1 : net (verifyRequest tok) = NetResult.response 200 (some j))
    (h2 : getField j "user_id" = some u) :
    (∀ (s1 : Nat) (b1 : Option Json),
        net (projectsUserRequest u) = NetResult.response s1 b1 →
        (get_dashboard net (some tok)).2
          = [verifyRequest tok, projectsUserRequest u, carbonRequest u])
    ∧ (net (projectsUserRequest u) = NetResult.netError →
        (get_dashboard net (some tok)).2
            = [verifyRequest tok, projectsUserRequest u]
        ∧ ∀ r ∈ (get_dashboard net (some tok)).2, r.service ≠ "carbon") := by
  have hv := verify_token_ok net tok j h1
  constructor
  · intro s1 b1 hp
    unfold get_dashboard
    rw [hv]
    cases hcb : net (carbonRequest u) with
    | netError => cases b1 <;> simp [h2, hp, hcb]
    | response s2 b2 => cases b1 <;> cases b2 <;> simp [h2, hp, hcb]
  · intro hp
    have htr : (get_dashboard net (some tok)).2
        = [verifyRequest tok, projectsUserRequest u] := by
      unfold get_dashboard
      rw [hv]
      simp [h2, hp]
    refine ⟨htr, ?_⟩
    intro r hr
    rw [htr] at hr
    simp only [List.mem_cons, List.mem_singleton] at hr
    rcases hr with hr | hr | hr
    · subst hr; simp [verifyRequest]
    · subst hr; simp [projectsUserRequest]
    · exact absurd hr (by simp)

/-- Claim C10, witness: with the carbon backend unreachable but projects
responding, the trace shows the fixed order auth, projects, carbon. -/
theorem c10_witness :
    (get_dashboard w10Net (some "t")).2
      = [verifyRequest "t", projectsUserRequest (Json.num 9),
         carbonRequest (Json.num 9)] :=
  (c10_sequential_fanout w10Net "t" (Json.obj [("user_id", Json.num 9)])
      (Json.num 9) rfl rfl).1
    200 (some (Json.obj [("user_id", Json.num 9)])) rfl

end EcoFlow
